import Mathlib

/-!
# Verification of the simple-retro backend core

Shallow embedding of the vote ledger (`internal/repository/sqlite.go`:
`AddVoteToAnswer`, `RemoveVoteFromAnswer`, `refreshAnswerData`), the service
layer dispatch (`internal/service/service.go`: `VoteAnswer`), and the
websocket room registry (`internal/repository/websocket.go`:
`AddConnection`, `sendMessageToRetro`, `CreateRetrospective`,
`DeleteRetrospective`, `LoadAllRetrospectives`).

UUIDs are modelled as `Nat`; session ids (strings in the source) are also
modelled as `Nat` since only equality on them matters.
-/

namespace SimpleRetro

/-- A row of the `answer_votes` table: `(id, answer_id, session_id)`. -/
structure VoteRecord where
  vid : Nat
  answerID : Nat
  sessionID : Nat
deriving DecidableEq, Repr

/-- The durable state touched by the vote ledger: the set of answer ids
present in the `answers` table and the rows of `answer_votes`. -/
structure SQLiteDB where
  answers : List Nat
  answer_votes : List VoteRecord
deriving DecidableEq, Repr

/-- The `WHERE answer_id = $1 AND session_id = $2` predicate. -/
def matchesPair (answerID sessionID : Nat) (r : VoteRecord) : Bool :=
  r.answerID == answerID && r.sessionID == sessionID

/-- `COUNT(av.id)` over `answer_votes` rows of one answer: the public vote
tally of that answer. -/
def tally (db : SQLiteDB) (answerID : Nat) : Nat :=
  (db.answer_votes.filter (fun r => r.answerID == answerID)).length

/-- Errors returned by the repository layer: `ErrRepoConflict`,
`ErrRepoNotFound` from `sqlite.go`, and `noRows` for a `QueryRow ... Scan`
that finds no row. -/
inductive RepoError where
  | conflict
  | notFound
  | noRows
deriving DecidableEq, Repr

/-- `refreshAnswerData` (sqlite.go:520-533): re-reads the answer row joined
with its vote count; errors when the answer row does not exist. -/
def refreshAnswerData (db : SQLiteDB) (answerID : Nat) : Except RepoError Nat :=
  if db.answers.contains answerID then .ok (tally db answerID)
  else .error .noRows

/-- Modelled from the spec: the SQL schema file creating `answer_votes` is not
among the sources, only the queries against it are.  Per the spec the
`(answer_id, session_id)` pair is under a uniqueness constraint, so the
`INSERT ... ON CONFLICT DO NOTHING` of `AddVoteToAnswer` inserts a row (one
row affected) exactly when no row with the same pair is present, and affects
zero rows otherwise. -/
def insertVote (db : SQLiteDB) (vid answerID sessionID : Nat) : SQLiteDB × Nat :=
  if db.answer_votes.any (matchesPair answerID sessionID) then (db, 0)
  else ({ db with answer_votes := db.answer_votes ++ [⟨vid, answerID, sessionID⟩] }, 1)

/-- `AddVoteToAnswer` (sqlite.go:483-500): insert under the uniqueness
constraint; zero affected rows means the pair existed, `ErrRepoConflict`.
On success the tally is re-read by `refreshAnswerData`.  The returned
`SQLiteDB` is the database state afterwards. -/
def AddVoteToAnswer (db : SQLiteDB) (vid answerID sessionID : Nat) :
    SQLiteDB × Except RepoError Nat :=
  let (db1, affected) := insertVote db vid answerID sessionID
  if affected = 0 then (db1, .error .conflict)
  else
    match refreshAnswerData db1 answerID with
    | .ok n => (db1, .ok n)
    | .error e => (db1, .error e)

/-- `RemoveVoteFromAnswer` (sqlite.go:502-518): `DELETE` of the pair; zero
affected rows means `ErrRepoNotFound`; otherwise the tally is re-read. -/
def RemoveVoteFromAnswer (db : SQLiteDB) (answerID sessionID : Nat) :
    SQLiteDB × Except RepoError Nat :=
  let affected := (db.answer_votes.filter (matchesPair answerID sessionID)).length
  let db1 : SQLiteDB :=
    { db with answer_votes := db.answer_votes.filter (fun r => !(matchesPair answerID sessionID r)) }
  if affected = 0 then (db1, .error .notFound)
  else
    match refreshAnswerData db1 answerID with
    | .ok n => (db1, .ok n)
    | .error e => (db1, .error e)

/-- `types.WebSocketMessage`: the broadcast event.  The payload is reduced to
the id of the carried entity (`none` when the message carries no value, as in
the `pong` reply). -/
structure WebSocketMessage where
  action : String
  wsType : String
  value : Option Nat
deriving DecidableEq, Repr

/-- `types.VoteAction`. -/
inductive VoteAction where
  | add
  | remove
deriving DecidableEq, Repr

/-- The service layer's errors: `ErrVoteAlreadyExists`, `ErrVoteNotFound`
(service.go), or a repository error passed through by the `default` case. -/
inductive ServiceError where
  | voteAlreadyExists
  | voteNotFound
  | repo (e : RepoError)
deriving DecidableEq, Repr

/-- `Service.VoteAnswer` (service.go): dispatches on the action, maps
`ErrRepoConflict` to `ErrVoteAlreadyExists` and `ErrRepoNotFound` to
`ErrVoteNotFound`, and only on repository success hands an `add_vote` /
`remove_vote` event to the websocket repository for broadcast.  Returns the
database afterwards, the outcome, and the list of events published. -/
def VoteAnswer (db : SQLiteDB) (action : VoteAction) (vid answerID sessionID : Nat) :
    SQLiteDB × Except ServiceError Nat × List WebSocketMessage :=
  match action with
  | .add =>
    let (db1, r) := AddVoteToAnswer db vid answerID sessionID
    match r with
    | .ok n => (db1, .ok n, [⟨"add_vote", "answer", some answerID⟩])
    | .error .conflict => (db1, .error .voteAlreadyExists, [])
    | .error e => (db1, .error (.repo e), [])
  | .remove =>
    let (db1, r) := RemoveVoteFromAnswer db answerID sessionID
    match r with
    | .ok n => (db1, .ok n, [⟨"remove_vote", "answer", some answerID⟩])
    | .error .notFound => (db1, .error .voteNotFound, [])
    | .error e => (db1, .error (.repo e), [])

/-! ## Websocket room registry (`internal/repository/websocket.go`) -/

/-- A `*websocket.Conn`: identified by an opaque id.  `writeFails` says
whether a `WriteJSON` on this connection returns an error (closed socket,
write timeout). -/
structure Conn where
  cid : Nat
  writeFails : Bool
deriving DecidableEq, Repr

/-- The `WebSocket` repository: its `connections` map from retrospective id
to slice of connections, with `none` for the `nil` slots written on
disconnect cleanup.  A key absent from the association list is a key absent
from the Go map. -/
structure WebSocketRepo where
  connections : List (Nat × List (Option Conn))
deriving DecidableEq, Repr

/-- Go map read `w.connections[id]`: `none` when the key is absent (the Go
`nil` slice, distinguished by the `connections == nil` check in
`sendMessageToRetro`). -/
def wsLookup (m : List (Nat × List (Option Conn))) (k : Nat) : Option (List (Option Conn)) :=
  match m with
  | [] => none
  | (k', v) :: rest => if k' = k then some v else wsLookup rest k

/-- Go map write `w.connections[k] = v`. -/
def mapSet (m : List (Nat × List (Option Conn))) (k : Nat) (v : List (Option Conn)) :
    List (Nat × List (Option Conn)) :=
  (k, v) :: m.filter (fun p => p.1 ≠ k)

/-- Go `delete(w.connections, k)`. -/
def mapDelete (m : List (Nat × List (Option Conn))) (k : Nat) :
    List (Nat × List (Option Conn)) :=
  m.filter (fun p => p.1 ≠ k)

/-- Result of `sendMessageToRetro`: the registry afterwards, the ids of
connections whose `WriteJSON` succeeded (they received the event), the ids
whose `WriteJSON` failed (the error is logged only), and whether the
function returned a `nil` error. -/
structure SendResult where
  repo : WebSocketRepo
  delivered : List Nat
  failed : List Nat
  ok : Bool
deriving DecidableEq, Repr

/-- `sendMessageToRetro` (websocket.go:105-130) with the room id supplied
explicitly (the `retrospectiveID != nil` path; the ctx path only resolves the
same id).  A `nil` connections slice returns success at once; otherwise each
non-`nil` slot gets a `WriteJSON` whose failure is logged and nothing else;
the registry is never mutated and the returned error is always `nil`. -/
def sendMessageToRetro (ws : WebSocketRepo) (_msg : WebSocketMessage) (id : Nat) :
    SendResult :=
  match wsLookup ws.connections id with
  | none => ⟨ws, [], [], true⟩
  | some conns =>
    ⟨ws,
     conns.filterMap (fun oc => match oc with
       | some c => if c.writeFails then none else some c.cid
       | none => none),
     conns.filterMap (fun oc => match oc with
       | some c => if c.writeFails then some c.cid else none
       | none => none),
     true⟩

/-- `WebSocket.CreateRetrospective` (websocket.go:185-188): unconditionally
installs a fresh empty connection slice for the retrospective's id. -/
def CreateRetrospective (ws : WebSocketRepo) (retroID : Nat) : WebSocketRepo :=
  ⟨mapSet ws.connections retroID []⟩

/-- `WebSocket.DeleteRetrospective` (websocket.go:191-201): first removes the
id from the map, then broadcasts the `delete`/`retrospective` event to that
same id. -/
def DeleteRetrospective (ws : WebSocketRepo) (id : Nat) : SendResult :=
  let ws1 : WebSocketRepo := ⟨mapDelete ws.connections id⟩
  sendMessageToRetro ws1 ⟨"delete", "retrospective", some id⟩ id

/-- `Service.LoadAllRetrospectives` (service.go:223-237): the startup
rehydration pass, one `WebSocket.CreateRetrospective` per persisted id. -/
def LoadAllRetrospectives (ws : WebSocketRepo) (ids : List Nat) : WebSocketRepo :=
  ids.foldl (fun w id => CreateRetrospective w id) ws

/-- Outcome of the registration prefix of `AddConnection`
(websocket.go:49-65), run with the retrospective id present in the context
and a transport whose upgrade succeeds: whether the protocol upgrade was
performed, the index the connection was appended at (`none` when the
function returned with an error before registering), and the registry
afterwards. -/
structure AddConnOutcome where
  repo : WebSocketRepo
  upgraded : Bool
  registeredIndex : Option Nat
  errored : Bool
deriving DecidableEq, Repr

/-- `AddConnection` registration prefix (websocket.go:49-65): the upgrade
(line 55) happens first; only then is the existence of the room checked
(line 60), returning the `retrospective doesn't exist` error; otherwise the
connection is appended at index `len(ws.connections[retrospectiveID])`. -/
def AddConnection (ws : WebSocketRepo) (retrospectiveID : Nat) (conn : Conn) :
    AddConnOutcome :=
  let upgraded := true
  match wsLookup ws.connections retrospectiveID with
  | none => ⟨ws, upgraded, none, true⟩
  | some conns =>
    ⟨⟨mapSet ws.connections retrospectiveID (conns ++ [some conn])⟩,
     upgraded, some conns.length, false⟩

/-- One successful read of the `AddConnection` read loop
(websocket.go:74-85): a message whose `Type` is `"ping"` is answered with a
`pong` on the same connection; any other message falls through to `continue`
with no reply and no change to the registry. -/
def readLoopIteration (ws : WebSocketRepo) (msg : WebSocketMessage) :
    WebSocketRepo × Option WebSocketMessage :=
  if msg.wsType = "ping" then (ws, some ⟨"", "pong", none⟩)
  else (ws, none)

/-- The cleanup assignment `ws.connections[retrospectiveID][i] = nil`
(websocket.go:95) after the read loop exits: `none` models the Go runtime
panic (index out of range) raised when the map entry is absent (a `nil`
slice) or the slice is shorter than `i + 1`. -/
def cleanupSetNil (ws : WebSocketRepo) (retrospectiveID i : Nat) :
    Option WebSocketRepo :=
  match wsLookup ws.connections retrospectiveID with
  | none => none
  | some conns =>
    if i < conns.length then
      some ⟨mapSet ws.connections retrospectiveID (conns.set i none)⟩
    else none

/-! ## Registry lemmas -/

theorem wsLookup_mapSet_self (m : List (Nat × List (Option Conn))) (k : Nat)
    (v : List (Option Conn)) : wsLookup (mapSet m k v) k = some v := by
  simp [mapSet, wsLookup]

theorem wsLookup_filter_ne (m : List (Nat × List (Option Conn))) (a k : Nat)
    (h : a ≠ k) : wsLookup (m.filter (fun p => p.1 ≠ a)) k = wsLookup m k := by
  induction m with
  | nil => rfl
  | cons p rest ih =>
    obtain ⟨k', v⟩ := p
    rw [List.filter_cons]
    by_cases hp : k' = a
    · rw [if_neg (by simpa using hp)]
      have hk : ¬ k' = k := by rw [hp]; exact h
      rw [ih, wsLookup, if_neg hk]
    · rw [if_pos (by simpa using hp)]
      by_cases hk : k' = k
      · rw [wsLookup, if_pos hk, wsLookup, if_pos hk]
      · rw [wsLookup, if_neg hk, wsLookup, if_neg hk, ih]

theorem wsLookup_mapSet_ne (m : List (Nat × List (Option Conn))) (a k : Nat)
    (v : List (Option Conn)) (h : a ≠ k) :
    wsLookup (mapSet m a v) k = wsLookup m k := by
  rw [mapSet, wsLookup, if_neg h]
  exact wsLookup_filter_ne m a k h

theorem wsLookup_mapDelete (m : List (Nat × List (Option Conn))) (k : Nat) :
    wsLookup (mapDelete m k) k = none := by
  induction m with
  | nil => rfl
  | cons p rest ih =>
    by_cases hp : p.1 = k
    · simpa [mapDelete, List.filter_cons, hp] using ih
    · simpa [mapDelete, List.filter_cons, hp, wsLookup] using ih

theorem sendMessageToRetro_repo (ws : WebSocketRepo) (msg : WebSocketMessage)
    (id : Nat) : (sendMessageToRetro ws msg id).repo = ws := by
  unfold sendMessageToRetro
  cases wsLookup ws.connections id <;> rfl

theorem sendMessageToRetro_ok (ws : WebSocketRepo) (msg : WebSocketMessage)
    (id : Nat) : (sendMessageToRetro ws msg id).ok = true := by
  unfold sendMessageToRetro
  cases wsLookup ws.connections id <;> rfl

theorem deleteRetrospective_lookup_self (ws : WebSocketRepo) (id : Nat) :
    wsLookup (DeleteRetrospective ws id).repo.connections id = none := by
  unfold DeleteRetrospective
  rw [sendMessageToRetro_repo]
  exact wsLookup_mapDelete ws.connections id

theorem loadAll_lookup_of_not_mem (ws : WebSocketRepo) (ids : List Nat) (id : Nat)
    (h : id ∉ ids) :
    wsLookup (LoadAllRetrospectives ws ids).connections id = wsLookup ws.connections id := by
  induction ids generalizing ws with
  | nil => rfl
  | cons a rest ih =>
    have ha : a ≠ id := fun hc => h (hc ▸ List.mem_cons_self a rest)
    have hrest : id ∉ rest := fun hc => h (List.mem_cons_of_mem a hc)
    calc wsLookup (LoadAllRetrospectives (CreateRetrospective ws a) rest).connections id
        = wsLookup (CreateRetrospective ws a).connections id := ih _ hrest
      _ = wsLookup ws.connections id := wsLookup_mapSet_ne ws.connections a id [] ha

theorem loadAll_lookup_of_mem (ws : WebSocketRepo) (ids : List Nat) (id : Nat)
    (h : id ∈ ids) :
    wsLookup (LoadAllRetrospectives ws ids).connections id = some [] := by
  induction ids generalizing ws with
  | nil => cases h
  | cons a rest ih =>
    by_cases hrest : id ∈ rest
    · exact ih (CreateRetrospective ws a) hrest
    · have ha : a = id := by
        rcases List.mem_cons.mp h with h1 | h1
        · exact h1.symm
        · exact absurd h1 hrest
      calc wsLookup (LoadAllRetrospectives (CreateRetrospective ws a) rest).connections id
          = wsLookup (CreateRetrospective ws a).connections id :=
            loadAll_lookup_of_not_mem _ rest id hrest
        _ = some [] := by rw [ha]; exact wsLookup_mapSet_self ws.connections id []

/-! ## Claim theorems: room registry and broadcast -/

/-- C2 (counterexample): with room 1 holding one live connection (id 7),
`DeleteRetrospective` delivers the delete-retrospective event to nobody — the
map entry is deleted before the broadcast, so the claim that every live
connection in the room receives the event first is false. -/
theorem deleteRetrospective_delivery_cex :
    wsLookup (WebSocketRepo.mk [(1, [some ⟨7, false⟩])]).connections 1
      = some [some ⟨7, false⟩] ∧
    (DeleteRetrospective ⟨[(1, [some ⟨7, false⟩])]⟩ 1).delivered = [] :=
  ⟨rfl, rfl⟩

/-- C2 (amended): `DeleteRetrospective R` removes `R` from the registry
before publishing, so the delete event is delivered to no connection (and no
write is even attempted, hence no connection is closed or touched), the
publish still reports success, and afterwards the room's entry is gone so
its snapshot is empty. -/
theorem deleteRetrospective_removes_before_publish (ws : WebSocketRepo) (id : Nat) :
    (DeleteRetrospective ws id).delivered = [] ∧
    (DeleteRetrospective ws id).failed = [] ∧
    (DeleteRetrospective ws id).ok = true ∧
    wsLookup (DeleteRetrospective ws id).repo.connections id = none := by
  have h : wsLookup (mapDelete ws.connections id) id = none :=
    wsLookup_mapDelete ws.connections id
  unfold DeleteRetrospective
  rw [sendMessageToRetro] at *
  refine ⟨?_, ?_, ?_, ?_⟩ <;> simp [sendMessageToRetro, h, wsLookup_mapDelete]

/-- C3 (counterexample): room 1 holds the single connection 7 whose write
fails; after `sendMessageToRetro` the registry is unchanged — connection 7 is
still in room 1's list, so the claimed `Leave(R, H)` eviction does not
happen. -/
theorem writeFailure_eviction_cex :
    (sendMessageToRetro ⟨[(1, [some ⟨7, true⟩])]⟩ ⟨"update", "answer", some 3⟩ 1).failed
      = [7] ∧
    wsLookup (sendMessageToRetro ⟨[(1, [some ⟨7, true⟩])]⟩
        ⟨"update", "answer", some 3⟩ 1).repo.connections 1
      = some [some ⟨7, true⟩] ∧
    (sendMessageToRetro ⟨[(1, [some ⟨7, true⟩])]⟩ ⟨"update", "answer", some 3⟩ 1).ok
      = true :=
  ⟨rfl, rfl, rfl⟩

/-- C3 (amended): when writing an event to a connection of a room fails, the
failure is only logged: the handle stays in the room's connection list (no
eviction of any kind), and `Publish` still returns success — the failure is
propagated neither to the publisher nor to the other listeners. -/
theorem writeFailure_logged_not_evicted (ws : WebSocketRepo)
    (msg : WebSocketMessage) (id : Nat) (conns : List (Option Conn)) (c : Conn)
    (hlook : wsLookup ws.connections id = some conns)
    (hmem : some c ∈ conns) (hfail : c.writeFails = true) :
    c.cid ∈ (sendMessageToRetro ws msg id).failed ∧
    (sendMessageToRetro ws msg id).repo = ws ∧
    wsLookup (sendMessageToRetro ws msg id).repo.connections id = some conns ∧
    (sendMessageToRetro ws msg id).ok = true := by
  refine ⟨?_, sendMessageToRetro_repo ws msg id, ?_, sendMessageToRetro_ok ws msg id⟩
  · rw [sendMessageToRetro, hlook]
    exact List.mem_filterMap.mpr ⟨some c, hmem, by simp [hfail]⟩
  · rw [sendMessageToRetro_repo]
    exact hlook

/-- C3 (witness for the amended theorem). -/
theorem writeFailure_logged_not_evicted_witness :
    wsLookup (WebSocketRepo.mk [(1, [some ⟨7, true⟩])]).connections 1
        = some [some ⟨7, true⟩] ∧
    some (Conn.mk 7 true) ∈ [some (Conn.mk 7 true)] ∧
    (Conn.mk 7 true).writeFails = true ∧
    (7 ∈ (sendMessageToRetro ⟨[(1, [some ⟨7, true⟩])]⟩ ⟨"update", "answer", some 3⟩ 1).failed ∧
     (sendMessageToRetro ⟨[(1, [some ⟨7, true⟩])]⟩ ⟨"update", "answer", some 3⟩ 1).repo
        = ⟨[(1, [some ⟨7, true⟩])]⟩ ∧
     wsLookup (sendMessageToRetro ⟨[(1, [some ⟨7, true⟩])]⟩
         ⟨"update", "answer", some 3⟩ 1).repo.connections 1 = some [some ⟨7, true⟩] ∧
     (sendMessageToRetro ⟨[(1, [some ⟨7, true⟩])]⟩ ⟨"update", "answer", some 3⟩ 1).ok
        = true) :=
  ⟨rfl, by simp, rfl,
   writeFailure_logged_not_evicted ⟨[(1, [some ⟨7, true⟩])]⟩ ⟨"update", "answer", some 3⟩
     1 [some ⟨7, true⟩] ⟨7, true⟩ rfl (by simp) rfl⟩

/-- C6: publishing to a room id whose entry is absent from the registry, or
whose connection list is empty, returns success, delivers to nobody, fails on
nobody, and leaves the registry unchanged. -/
theorem publish_no_listeners_noop (ws : WebSocketRepo) (msg : WebSocketMessage)
    (id : Nat)
    (h : wsLookup ws.connections id = none ∨ wsLookup ws.connections id = some []) :
    (sendMessageToRetro ws msg id).ok = true ∧
    (sendMessageToRetro ws msg id).delivered = [] ∧
    (sendMessageToRetro ws msg id).failed = [] ∧
    (sendMessageToRetro ws msg id).repo = ws := by
  rcases h with h | h <;> rw [sendMessageToRetro, h] <;> exact ⟨rfl, rfl, rfl, rfl⟩

/-- C6 (witness). -/
theorem publish_no_listeners_noop_witness :
    (wsLookup (WebSocketRepo.mk [(2, [])]).connections 1 = none ∨
       wsLookup (WebSocketRepo.mk [(2, [])]).connections 1 = some []) ∧
    ((sendMessageToRetro ⟨[(2, [])]⟩ ⟨"create", "question", some 4⟩ 1).ok = true ∧
     (sendMessageToRetro ⟨[(2, [])]⟩ ⟨"create", "question", some 4⟩ 1).delivered = [] ∧
     (sendMessageToRetro ⟨[(2, [])]⟩ ⟨"create", "question", some 4⟩ 1).failed = [] ∧
     (sendMessageToRetro ⟨[(2, [])]⟩ ⟨"create", "question", some 4⟩ 1).repo = ⟨[(2, [])]⟩) :=
  ⟨Or.inl rfl,
   publish_no_listeners_noop ⟨[(2, [])]⟩ ⟨"create", "question", some 4⟩ 1 (Or.inl rfl)⟩

/-- C7 (counterexample): joining a room absent from the registry does fail
and registers nothing, but only after the protocol upgrade has been
performed: `upgraded` is `true` at the failure, refuting the claim that the
failure occurs before the upgrade completes. -/
theorem addConnection_upgrade_order_cex :
    wsLookup (WebSocketRepo.mk []).connections 1 = none ∧
    (AddConnection ⟨[]⟩ 1 ⟨7, false⟩).errored = true ∧
    (AddConnection ⟨[]⟩ 1 ⟨7, false⟩).registeredIndex = none ∧
    (AddConnection ⟨[]⟩ 1 ⟨7, false⟩).upgraded = true :=
  ⟨rfl, rfl, rfl, rfl⟩

/-- C7 (amended): a websocket join for a room id with no registry entry
fails and registers no connection handle, leaving the registry unchanged —
but the failure occurs only after the protocol upgrade has completed, since
`AddConnection` upgrades the transport before checking that the room
exists. -/
theorem addConnection_missing_room_after_upgrade (ws : WebSocketRepo) (id : Nat)
    (c : Conn) (h : wsLookup ws.connections id = none) :
    (AddConnection ws id c).errored = true ∧
    (AddConnection ws id c).registeredIndex = none ∧
    (AddConnection ws id c).repo = ws ∧
    (AddConnection ws id c).upgraded = true := by
  rw [AddConnection, h]
  exact ⟨rfl, rfl, rfl, rfl⟩

/-- C7 (witness for the amended theorem). -/
theorem addConnection_missing_room_after_upgrade_witness :
    wsLookup (WebSocketRepo.mk [(2, [])]).connections 1 = none ∧
    ((AddConnection ⟨[(2, [])]⟩ 1 ⟨7, false⟩).errored = true ∧
     (AddConnection ⟨[(2, [])]⟩ 1 ⟨7, false⟩).registeredIndex = none ∧
     (AddConnection ⟨[(2, [])]⟩ 1 ⟨7, false⟩).repo = ⟨[(2, [])]⟩ ∧
     (AddConnection ⟨[(2, [])]⟩ 1 ⟨7, false⟩).upgraded = true) :=
  ⟨rfl, addConnection_missing_room_after_upgrade ⟨[(2, [])]⟩ 1 ⟨7, false⟩ rfl⟩

/-- C8: a successfully read inbound message of type `"ping"` is answered
with a `pong` on the same connection; any other successfully read message
gets no reply; in both cases the registry is unchanged. -/
theorem readLoop_ping_pong (ws : WebSocketRepo) (msg : WebSocketMessage) :
    (readLoopIteration ws msg).1 = ws ∧
    (readLoopIteration ws msg).2 =
      (if msg.wsType = "ping" then some ⟨"", "pong", none⟩ else none) := by
  by_cases h : msg.wsType = "ping" <;> simp [readLoopIteration, h]

/-- C9: if a connection was registered at index `i` of room `id` and the
room is then removed by `DeleteRetrospective`, or its list is replaced by a
fresh empty one by `CreateRetrospective`, the read-loop cleanup assignment
`connections[id][i] = nil` indexes a nil or shorter slice and panics
(modelled as `none`): the cleanup path is not total. -/
theorem cleanup_not_total (ws : WebSocketRepo) (id i : Nat)
    (conns : List (Option Conn))
    (hjoined : wsLookup ws.connections id = some conns) (hi : i < conns.length) :
    cleanupSetNil (DeleteRetrospective ws id).repo id i = none ∧
    cleanupSetNil (CreateRetrospective ws id) id i = none := by
  constructor
  · rw [cleanupSetNil, deleteRetrospective_lookup_self]
  · rw [cleanupSetNil, CreateRetrospective, wsLookup_mapSet_self]
    simp

/-- C9 (witness). -/
theorem cleanup_not_total_witness :
    wsLookup (WebSocketRepo.mk [(1, [some ⟨7, false⟩])]).connections 1
        = some [some ⟨7, false⟩] ∧
    0 < [some (Conn.mk 7 false)].length ∧
    (cleanupSetNil (DeleteRetrospective ⟨[(1, [some ⟨7, false⟩])]⟩ 1).repo 1 0 = none ∧
     cleanupSetNil (CreateRetrospective ⟨[(1, [some ⟨7, false⟩])]⟩ 1) 1 0 = none) :=
  ⟨rfl, by simp,
   cleanup_not_total ⟨[(1, [some ⟨7, false⟩])]⟩ 1 0 [some ⟨7, false⟩] rfl (by simp)⟩

/-- C10: `CreateRetrospective` unconditionally installs a fresh empty
connection list for the room id, so any handles previously registered for it
are dropped: the entry becomes `[]`, a subsequent broadcast to the room
delivers to nobody, and the startup rehydration `LoadAllRetrospectives` does
this for every persisted id. -/
theorem createRetrospective_resets_room (ws : WebSocketRepo) (id : Nat)
    (ids : List Nat) (msg : WebSocketMessage) (hmem : id ∈ ids) :
    wsLookup (CreateRetrospective ws id).connections id = some [] ∧
    (sendMessageToRetro (CreateRetrospective ws id) msg id).delivered = [] ∧
    wsLookup (LoadAllRetrospectives ws ids).connections id = some [] := by
  have h : wsLookup (CreateRetrospective ws id).connections id = some [] :=
    wsLookup_mapSet_self ws.connections id []
  refine ⟨h, ?_, loadAll_lookup_of_mem ws ids id hmem⟩
  rw [sendMessageToRetro, h]
  rfl

/-- C10 (witness). -/
theorem createRetrospective_resets_room_witness :
    (1 : Nat) ∈ [1, 2] ∧
    (wsLookup (CreateRetrospective ⟨[(1, [some ⟨7, false⟩])]⟩ 1).connections 1 = some [] ∧
     (sendMessageToRetro (CreateRetrospective ⟨[(1, [some ⟨7, false⟩])]⟩ 1)
        ⟨"create", "answer", some 4⟩ 1).delivered = [] ∧
     wsLookup (LoadAllRetrospectives ⟨[(1, [some ⟨7, false⟩])]⟩ [1, 2]).connections 1
        = some []) :=
  ⟨by simp,
   createRetrospective_resets_room ⟨[(1, [some ⟨7, false⟩])]⟩ 1 [1, 2]
     ⟨"create", "answer", some 4⟩ (by simp)⟩

/-! ## Claim theorems: vote ledger -/

/-- C1: when a vote record for the `(answer, session)` pair already exists,
`VoteAnswer` with the add action fails with `ErrVoteAlreadyExists`, the
database (hence the set of vote records and the answer's tally) is
unchanged, and no `add_vote` event is published. -/
theorem addVote_conflict_unchanged (db : SQLiteDB) (vid answerID sessionID : Nat)
    (h : db.answer_votes.any (matchesPair answerID sessionID) = true) :
    VoteAnswer db .add vid answerID sessionID
      = (db, .error .voteAlreadyExists, []) ∧
    tally (VoteAnswer db .add vid answerID sessionID).1 answerID
      = tally db answerID := by
  have h1 : insertVote db vid answerID sessionID = (db, 0) := by
    rw [insertVote, if_pos h]
  have h2 : AddVoteToAnswer db vid answerID sessionID = (db, .error .conflict) := by
    rw [AddVoteToAnswer, h1]
    rfl
  have hmain : VoteAnswer db .add vid answerID sessionID
      = (db, .error .voteAlreadyExists, []) := by
    rw [VoteAnswer, h2]
  exact ⟨hmain, by rw [hmain]⟩

/-- C1 (witness). -/
theorem addVote_conflict_unchanged_witness :
    (SQLiteDB.mk [5] [⟨1, 5, 9⟩]).answer_votes.any (matchesPair 5 9) = true ∧
    (VoteAnswer ⟨[5], [⟨1, 5, 9⟩]⟩ .add 2 5 9
       = (⟨[5], [⟨1, 5, 9⟩]⟩, .error .voteAlreadyExists, []) ∧
     tally (VoteAnswer ⟨[5], [⟨1, 5, 9⟩]⟩ .add 2 5 9).1 5
       = tally ⟨[5], [⟨1, 5, 9⟩]⟩ 5) :=
  ⟨rfl, addVote_conflict_unchanged ⟨[5], [⟨1, 5, 9⟩]⟩ 2 5 9 rfl⟩

/-- C4: when no vote record for the `(answer, session)` pair exists,
`VoteAnswer` with the remove action fails with `ErrVoteNotFound`, the
database is unchanged, and no `remove_vote` event is published. -/
theorem removeVote_notFound_unchanged (db : SQLiteDB) (vid answerID sessionID : Nat)
    (h : db.answer_votes.any (matchesPair answerID sessionID) = false) :
    VoteAnswer db .remove vid answerID sessionID
      = (db, .error .voteNotFound, []) := by
  have hall : ∀ r ∈ db.answer_votes, ¬ matchesPair answerID sessionID r = true := by
    intro r hr
    by_contra hc
    have := (List.any_eq_true.mpr ⟨r, hr, hc⟩)
    rw [h] at this
    cases this
  have hfilter : db.answer_votes.filter (matchesPair answerID sessionID) = [] :=
    List.filter_eq_nil_iff.mpr hall
  have hkeep : db.answer_votes.filter
      (fun r => !(matchesPair answerID sessionID r)) = db.answer_votes :=
    List.filter_eq_self.mpr (fun r hr => by
      simp [Bool.eq_false_iff.mpr (hall r hr)])
  have h2 : RemoveVoteFromAnswer db answerID sessionID = (db, .error .notFound) := by
    rw [RemoveVoteFromAnswer]
    simp only [hfilter, hkeep, List.length_nil]
    rfl
  rw [VoteAnswer, h2]

/-- C4 (witness). -/
theorem removeVote_notFound_unchanged_witness :
    (SQLiteDB.mk [5] [⟨1, 5, 8⟩]).answer_votes.any (matchesPair 5 9) = false ∧
    VoteAnswer ⟨[5], [⟨1, 5, 8⟩]⟩ .remove 0 5 9
      = (⟨[5], [⟨1, 5, 8⟩]⟩, .error .voteNotFound, []) :=
  ⟨rfl, removeVote_notFound_unchanged ⟨[5], [⟨1, 5, 8⟩]⟩ 0 5 9 rfl⟩

/-- C5: starting from a database with no vote record for the pair and tally
zero for the answer (which exists in the `answers` table), the sequence
add, remove, add succeeds at every step with tallies 1, 0, 1. -/
theorem vote_roundtrip_1_0_1 (db : SQLiteDB) (vid1 vid2 answerID sessionID : Nat)
    (hans : db.answers.contains answerID = true)
    (h0 : tally db answerID = 0) :
    (VoteAnswer db .add vid1 answerID sessionID).2.1 = .ok 1 ∧
    (VoteAnswer (VoteAnswer db .add vid1 answerID sessionID).1
       .remove vid1 answerID sessionID).2.1 = .ok 0 ∧
    (VoteAnswer (VoteAnswer (VoteAnswer db .add vid1 answerID sessionID).1
       .remove vid1 answerID sessionID).1 .add vid2 answerID sessionID).2.1 = .ok 1 := by
  have hfil : db.answer_votes.filter (fun r => r.answerID == answerID) = [] :=
    List.length_eq_zero.mp (by simpa [tally] using h0)
  have hnoA : ∀ r ∈ db.answer_votes, ¬ (r.answerID == answerID) = true := by
    intro r hr
    exact List.filter_eq_nil_iff.mp hfil r hr
  have hnopair : ∀ r ∈ db.answer_votes, matchesPair answerID sessionID r = false := by
    intro r hr
    simp [matchesPair, Bool.eq_false_iff.mpr (hnoA r hr)]
  have hany : db.answer_votes.any (matchesPair answerID sessionID) = false := by
    by_contra hc
    obtain ⟨r, hr, hm⟩ := List.any_eq_true.mp (eq_true_of_ne_false hc)
    rw [hnopair r hr] at hm
    cases hm
  have hfilpair : db.answer_votes.filter (matchesPair answerID sessionID) = [] :=
    List.filter_eq_nil_iff.mpr (fun r hr => by simp [hnopair r hr])
  have hkeep : db.answer_votes.filter
      (fun r => !(matchesPair answerID sessionID r)) = db.answer_votes :=
    List.filter_eq_self.mpr (fun r hr => by simp [hnopair r hr])
  -- the database after the first add
  have hstep : ∀ vid : Nat, VoteAnswer db .add vid answerID sessionID
      = ({ db with answer_votes := db.answer_votes ++ [⟨vid, answerID, sessionID⟩] },
         .ok 1, [⟨"add_vote", "answer", some answerID⟩]) := by
    intro vid
    have hins : insertVote db vid answerID sessionID
        = ({ db with answer_votes := db.answer_votes ++ [⟨vid, answerID, sessionID⟩] }, 1) := by
      rw [insertVote, if_neg]
      simp [hany]
    have htal : tally
        { db with answer_votes := db.answer_votes ++ [⟨vid, answerID, sessionID⟩] }
          answerID = 1 := by
      simp [tally, List.filter_append, hfil]
    have href : refreshAnswerData
        { db with answer_votes := db.answer_votes ++ [⟨vid, answerID, sessionID⟩] }
          answerID = .ok 1 := by
      rw [refreshAnswerData, if_pos (by simpa using hans), htal]
    rw [VoteAnswer, AddVoteToAnswer, hins]
    simp [href]
  have hrem : VoteAnswer
      { db with answer_votes := db.answer_votes ++ [VoteRecord.mk vid1 answerID sessionID] }
        .remove vid1 answerID sessionID
      = (db, .ok 0, [⟨"remove_vote", "answer", some answerID⟩]) := by
    have hmatch1 : matchesPair answerID sessionID
        (VoteRecord.mk vid1 answerID sessionID) = true := by
      simp [matchesPair]
    have haff : ((db.answer_votes ++ [VoteRecord.mk vid1 answerID sessionID]).filter
        (matchesPair answerID sessionID)).length = 1 := by
      rw [List.filter_append, hfilpair]
      simp [hmatch1]
    have hdel : (db.answer_votes ++ [VoteRecord.mk vid1 answerID sessionID]).filter
        (fun r => !(matchesPair answerID sessionID r)) = db.answer_votes := by
      rw [List.filter_append, hkeep]
      simp [hmatch1]
    have href2 : refreshAnswerData
        { answers := db.answers, answer_votes := db.answer_votes } answerID = .ok 0 := by
      rw [refreshAnswerData, if_pos (by simpa using hans)]
      show Except.ok (tally db answerID) = _
      rw [h0]
    have hrep : RemoveVoteFromAnswer
        { db with answer_votes := db.answer_votes ++ [VoteRecord.mk vid1 answerID sessionID] }
        answerID sessionID = (db, .ok 0) := by
      rw [RemoveVoteFromAnswer]
      simp only [haff, hdel]
      rw [if_neg (by norm_num), href2]
    rw [VoteAnswer, hrep]
  have e1 : (VoteAnswer db .add vid1 answerID sessionID).1
      = { db with answer_votes := db.answer_votes ++ [VoteRecord.mk vid1 answerID sessionID] } := by
    rw [hstep vid1]
  have e2 : (VoteAnswer
      { db with answer_votes := db.answer_votes ++ [VoteRecord.mk vid1 answerID sessionID] }
        .remove vid1 answerID sessionID).1 = db := by
    rw [hrem]
  refine ⟨?_, ?_, ?_⟩
  · rw [hstep vid1]
  · rw [e1, hrem]
  · rw [e1, e2, hstep vid2]

/-- C5 (witness). -/
theorem vote_roundtrip_1_0_1_witness :
    (SQLiteDB.mk [5] []).answers.contains 5 = true ∧
    tally ⟨[5], []⟩ 5 = 0 ∧
    ((VoteAnswer ⟨[5], []⟩ .add 2 5 9).2.1 = .ok 1 ∧
     (VoteAnswer (VoteAnswer ⟨[5], []⟩ .add 2 5 9).1 .remove 2 5 9).2.1 = .ok 0 ∧
     (VoteAnswer (VoteAnswer (VoteAnswer ⟨[5], []⟩ .add 2 5 9).1
        .remove 2 5 9).1 .add 3 5 9).2.1 = .ok 1) :=
  ⟨rfl, rfl, vote_roundtrip_1_0_1 ⟨[5], []⟩ 2 3 5 9 rfl rfl⟩

end SimpleRetro
